import Mathlib

set_option maxHeartbeats 1000000

/-!
Verification of the claude-parts transcript upload pipeline.

A shallow embedding of the core of the repository: the Transcript Loader and the
hook CLIs (src/src/hook.ts, src/src/cli.ts, the CLI variant in
src/unnamed/part_001), the ingestion endpoint handlers
(src/api/upload.ts, the two handlers in src/unnamed/part_001), and the
connection caches (getMongoClient, getS3Client).

JavaScript objects are modelled as insertion-ordered association lists with
last-wins lookup (so object spread followed by explicit fields overrides
earlier keys), JSON.parse as an abstract parameter of type
String to Option JVal (a library function, external to the repository),
the filesystem as a partial map from paths to contents, and thrown
exceptions as Option/Except or as explicit error branches.
-/

/-- JSON-like values flowing through the pipeline. jundefined models the
JavaScript undefined value produced by absent-property access. -/
inductive JVal where
  | jnull
  | jundefined
  | jbool (b : Bool)
  | jnum (n : Int)
  | jstr (s : String)
  | jarr (xs : List JVal)
  | jobj (fields : List (String × JVal))

/-- A JavaScript object: insertion-ordered fields; duplicate keys may occur,
with the later occurrence overriding on lookup (spread semantics). -/
abbrev JsObj := List (String × JVal)

/-- Field lookup with last-wins semantics, as produced by JavaScript object
literals built by spread followed by explicit fields. -/
def jsGet (o : JsObj) (k : String) : Option JVal :=
  (o.reverse.find? (fun p => p.fst == k)).map Prod.snd

/-- JavaScript member access: an absent field reads as undefined. -/
def jsGetD (o : JsObj) (k : String) : JVal :=
  (jsGet o k).getD .jundefined

/-- JavaScript truthiness of a value. -/
def jvalTruthy : JVal → Bool
  | .jnull => false
  | .jundefined => false
  | .jbool b => b
  | .jnum n => n != 0
  | .jstr s => s != ""
  | .jarr _ => true
  | .jobj _ => true

/-- Truthiness of a field access, as in the validation tests of the handlers
(an absent field is undefined, hence falsy; an empty string is falsy). -/
def getTruthy (o : JsObj) (k : String) : Bool :=
  jvalTruthy (jsGetD o k)

/-- JavaScript truthiness of a string-or-undefined environment or header
value: present and non-empty. -/
def strTruthy : Option String → Bool
  | none => false
  | some s => s != ""

/-- JavaScript template-literal stringification, for the values the code
actually interpolates (session_id is a string in every valid payload;
the other cases are listed for totality). -/
def jsToString : JVal → String
  | .jstr s => s
  | .jnull => "null"
  | .jundefined => "undefined"
  | .jbool b => if b then "true" else "false"
  | .jnum n => toString n
  | .jarr _ => ""
  | .jobj _ => "[object Object]"

/-- Split a character list on a separator, JavaScript String.split
semantics: an empty input yields one empty chunk. -/
def splitCharsOn (sep : Char) : List Char → List (List Char)
  | [] => [[]]
  | c :: cs =>
    let rest := splitCharsOn sep cs
    if c = sep then [] :: rest
    else
      match rest with
      | [] => [[c]]
      | r :: rs => (c :: r) :: rs

/-- JavaScript String.trim: strip whitespace from both ends. -/
def jsTrim (s : String) : String :=
  String.mk (((s.toList.dropWhile Char.isWhitespace).reverse.dropWhile
    Char.isWhitespace).reverse)

/-- The line decomposition used by every transcript loader in the
repository: content.trim, split on newline, filter(Boolean) discarding
empty-string lines. -/
def linesOf (content : String) : List String :=
  ((splitCharsOn '\n' (jsTrim content).toList).map (fun cs => String.mk cs)).filter
    (fun l => l != "")

/-- lines.map(line to JSON.parse(line)) with exception propagation: one
failing line aborts the whole map (models the thrown SyntaxError). -/
def mapLines (jp : String → Option JVal) : List String → Option (List JVal)
  | [] => some []
  | l :: ls =>
    match jp l, mapLines jp ls with
    | some v, some vs => some (v :: vs)
    | _, _ => none

/-- parseTranscript from src/src/hook.ts: missing file yields an empty list;
otherwise trim, split, filter blank lines, parse each line; the surrounding
try/catch turns any line parse failure into an empty list. The filesystem
is the partial map fs from paths to contents; jp models JSON.parse. -/
def parseTranscript (jp : String → Option JVal) (fs : String → Option String)
    (transcriptPath : String) : List JVal :=
  match fs transcriptPath with
  | none => []
  | some content =>
    match mapLines jp (linesOf content) with
    | some entries => entries
    | none => []

theorem mapLines_eq_none_of_mem (jp : String → Option JVal) (ls : List String)
    (l : String) (hl : l ∈ ls) (hbad : jp l = none) : mapLines jp ls = none := by
  induction ls with
  | nil => cases hl
  | cons a as ih =>
    cases hl with
    | head => simp [mapLines, hbad]
    | tail _ h =>
      cases hjpa : jp a <;> simp [mapLines, hjpa, ih h]

theorem mapLines_length (jp : String → Option JVal) (ls : List String)
    (vs : List JVal) (h : mapLines jp ls = some vs) : vs.length = ls.length := by
  induction ls generalizing vs with
  | nil =>
    simp [mapLines] at h
    simp [← h]
  | cons a as ih =>
    cases hjpa : jp a with
    | none => simp [mapLines, hjpa] at h
    | some v =>
      cases hrest : mapLines jp as with
      | none => simp [mapLines, hjpa, hrest] at h
      | some vs2 =>
        simp [mapLines, hjpa, hrest] at h
        simp [← h, ih vs2 hrest]

theorem mapLines_get (jp : String → Option JVal) (ls : List String)
    (vs : List JVal) (h : mapLines jp ls = some vs) (i : Nat)
    (hi : i < ls.length) (hj : i < vs.length) :
    jp (ls.get ⟨i, hi⟩) = some (vs.get ⟨i, hj⟩) := by
  induction ls generalizing vs i with
  | nil => cases hi
  | cons a as ih =>
    cases hjpa : jp a with
    | none => simp [mapLines, hjpa] at h
    | some v =>
      cases hrest : mapLines jp as with
      | none => simp [mapLines, hjpa, hrest] at h
      | some vs2 =>
        simp [mapLines, hjpa, hrest] at h
        subst h
        cases i with
        | zero => simpa using hjpa
        | succ n =>
          exact ih vs2 hrest n (Nat.lt_of_succ_lt_succ hi) (Nat.lt_of_succ_lt_succ hj)

/-- Module-level MongoDB cache state: the cachedClient variable, a supply of
fresh client identities (one per new MongoClient construction), and a count
of connection establishments performed so far in this process. -/
structure GetState where
  cachedClient : Option Nat
  nextId : Nat
  establishCount : Nat

/-- getMongoClient from src/api/upload.ts and src/unnamed/part_000 and
part_001: a falsy MONGODB_URI throws; a cached client is returned as is;
otherwise a new client is constructed, assigned to the cache BEFORE
connect() is awaited, and connect() may throw (connectOk false), in which
case the cache keeps the never-connected client. -/
def getMongoClient (uri : Option String) (connectOk : Bool) (s : GetState) :
    Except String Nat × GetState :=
  if strTruthy uri then
    match s.cachedClient with
    | some c => (.ok c, s)
    | none =>
      let c := s.nextId
      let s1 : GetState := ⟨some c, s.nextId + 1, s.establishCount + 1⟩
      if connectOk then (.ok c, s1) else (.error "connect failed", s1)
  else
    (.error "MONGODB_URI environment variable not set", s)

/-- A sequence of getMongoClient calls in one warm process, threading the
module-level state; each call takes its own connect outcome. -/
def runGetCalls (uri : Option String) (oks : List Bool) (s : GetState) :
    List (Except String Nat) × GetState :=
  match oks with
  | [] => ([], s)
  | ok :: rest =>
    let r := getMongoClient uri ok s
    let rs := runGetCalls uri rest r.2
    (r.1 :: rs.1, rs.2)

/-- Module-level S3 cache state from the blob-store handler in
src/unnamed/part_001. -/
structure S3State where
  cachedS3Client : Option Nat
  nextId : Nat
  createCount : Nat

/-- AWS configuration read by getS3Client and the blob-store handler. -/
structure S3Env where
  region : Option String
  accessKeyId : Option String
  secretAccessKey : Option String
  bucket : Option String

/-- getS3Client from src/unnamed/part_001: missing AWS configuration
throws (checked before the cache); a cached client is returned; otherwise a
new client is constructed and cached (client construction has no connect
step and does not fail). -/
def getS3Client (env : S3Env) (s : S3State) : Except String Nat × S3State :=
  if !strTruthy env.region || !strTruthy env.accessKeyId
      || !strTruthy env.secretAccessKey then
    (.error "Missing required AWS environment variables", s)
  else
    match s.cachedS3Client with
    | some c => (.ok c, s)
    | none =>
      let c := s.nextId
      (.ok c, ⟨some c, s.nextId + 1, s.createCount + 1⟩)

/-- client_ip as computed in src/api/upload.ts: x-forwarded-for, or else
the socket remote address, or else JavaScript undefined (no further
fallback in this variant). -/
def clientIpUpload (xff remote : Option String) : JVal :=
  match xff with
  | some s =>
    if s != "" then .jstr s
    else
      match remote with
      | some r => .jstr r
      | none => .jundefined
  | none =>
    match remote with
    | some r => .jstr r
    | none => .jundefined

/-- clientIp as computed in both src/unnamed/part_001 handlers:
x-forwarded-for, or else the socket remote address, or else the literal
string unknown. -/
def clientIpFull (xff remote : Option String) : String :=
  match xff with
  | some s =>
    if s != "" then s
    else
      match remote with
      | some r => if r != "" then r else "unknown"
      | none => "unknown"
  | none =>
    match remote with
    | some r => if r != "" then r else "unknown"
    | none => "unknown"

/-- Request shape seen by src/api/upload.ts: method, the x-api-key and
x-forwarded-for headers, the socket remote address, and the parsed JSON
body as an object. -/
structure UploadReq where
  method : String
  apiKeyHeader : Option String
  xff : Option String
  socketRemote : Option String
  body : JsObj

/-- Environment read by src/api/upload.ts (the database and collection
names only select the destination and are omitted). -/
structure UploadEnv where
  apiKeyEnv : Option String
  mongoUri : Option String

/-- Outcome of one document-store handler invocation: HTTP status, the
documents inserted during the request, the Mongo cache state afterwards,
and whether the connection getter was invoked at all. -/
structure HandlerOut where
  status : Nat
  inserted : List JsObj
  connSt : GetState
  connRequested : Bool

/-- The handler of src/api/upload.ts: method gate, optional shared-secret
gate, validation of session_id and tool_use_id truthiness, connection via
getMongoClient (connectOk models whether connect succeeds), enrichment by
object spread with uploaded_at and client_ip appended after the payload
fields, and insertOne (insertOk models whether the insert succeeds);
every thrown error is caught and answered with a 500. -/
def uploadHandler (env : UploadEnv) (req : UploadReq) (connectOk insertOk : Bool)
    (now : JVal) (st : GetState) : HandlerOut :=
  if req.method != "POST" then ⟨405, [], st, false⟩
  else if strTruthy env.apiKeyEnv && (req.apiKeyHeader != env.apiKeyEnv) then
    ⟨401, [], st, false⟩
  else if !getTruthy req.body "session_id" || !getTruthy req.body "tool_use_id" then
    ⟨400, [], st, false⟩
  else
    match getMongoClient env.mongoUri connectOk st with
    | (.error _, st1) => ⟨500, [], st1, true⟩
    | (.ok _, st1) =>
      let doc := req.body ++
        [("uploaded_at", now),
         ("client_ip", clientIpUpload req.xff req.socketRemote)]
      if insertOk then ⟨200, [doc], st1, true⟩ else ⟨500, [], st1, true⟩

/-- Request shape seen by the two src/unnamed/part_001 handlers (no
x-api-key gate in these variants). -/
structure P1Req where
  method : String
  xff : Option String
  socketRemote : Option String
  body : JsObj

/-- The document-store handler of src/unnamed/part_001: OPTIONS preflight,
method gate, session_id truthiness validation, getMongoClient, enrichment
with uploaded_at and client_ip (with the unknown fallback), insertOne. -/
def mongo2Handler (mongoUri : Option String) (req : P1Req)
    (connectOk insertOk : Bool) (now : JVal) (st : GetState) : HandlerOut :=
  if req.method == "OPTIONS" then ⟨200, [], st, false⟩
  else if req.method != "POST" then ⟨405, [], st, false⟩
  else if !getTruthy req.body "session_id" then ⟨400, [], st, false⟩
  else
    match getMongoClient mongoUri connectOk st with
    | (.error _, st1) => ⟨500, [], st1, true⟩
    | (.ok _, st1) =>
      let doc := req.body ++
        [("uploaded_at", now),
         ("client_ip", .jstr (clientIpFull req.xff req.socketRemote))]
      if insertOk then ⟨200, [doc], st1, true⟩ else ⟨500, [], st1, true⟩

/-- The blob store: keys to stored documents (the stored JSON body is
represented by the document object it serializes). -/
abbrev S3Store := List (String × JsObj)

/-- PutObject semantics: writing a key replaces any object at that key. -/
def s3Put (store : S3Store) (k : String) (v : JsObj) : S3Store :=
  store.filter (fun p => p.fst != k) ++ [(k, v)]

/-- The destination key computed by the blob-store handler. -/
def s3Key (sessionId : String) : String :=
  "transcripts/" ++ sessionId ++ ".json"

/-- Outcome of one blob-store handler invocation. -/
structure S3Out where
  status : Nat
  s3St : S3State
  store : S3Store

/-- The blob-store handler of src/unnamed/part_001: OPTIONS preflight,
method gate, session_id validation, S3_BUCKET check (throws when falsy),
getS3Client, enrichment, PutObject at transcripts/(session_id).json
(putOk models whether send succeeds). -/
def s3Handler (env : S3Env) (req : P1Req) (putOk : Bool) (now : String)
    (st : S3State) (store : S3Store) : S3Out :=
  if req.method == "OPTIONS" then ⟨200, st, store⟩
  else if req.method != "POST" then ⟨405, st, store⟩
  else if !getTruthy req.body "session_id" then ⟨400, st, store⟩
  else if !strTruthy env.bucket then ⟨500, st, store⟩
  else
    match getS3Client env st with
    | (.error _, st1) => ⟨500, st1, store⟩
    | (.ok _, st1) =>
      let doc := req.body ++
        [("uploaded_at", .jstr now),
         ("client_ip", .jstr (clientIpFull req.xff req.socketRemote))]
      let key := s3Key (jsToString (jsGetD req.body "session_id"))
      if putOk then ⟨200, st1, s3Put store key doc⟩ else ⟨500, st1, store⟩

/-- Abstract effects of one hook CLI invocation, in program order. -/
inductive HookAction where
  | checkMarker
  | readStdinA
  | parseTranscriptA
  | startFetch
  | awaitResponse
  | sleepMs (n : Nat)
  | exitA (code : Nat)
  deriving DecidableEq

/-- Result of one hook CLI invocation: process exit code, the payloads
POSTed to the network (a request counts as issued once fetch is called,
whatever its outcome), and the trace of effects. -/
structure HookRun where
  exitCode : Nat
  requests : List JsObj
  trace : List HookAction

/-- JavaScript property access on a parsed JSON value: an object exposes
its fields, null property access throws (none), and any other primitive
exposes no own properties (every access is undefined). -/
def jsProps : JVal → Option JsObj
  | .jobj fields => some fields
  | .jnull => none
  | .jundefined => none
  | _ => some []

/-- input.transcript_path as a filesystem path: existsSync returns false
for any non-string argument, so only a string value can name a file. -/
def transcriptPathOf (input : JsObj) : Option String :=
  match jsGet input "transcript_path" with
  | some (.jstr p) => some p
  | _ => none

/-- The inline transcript load shared by src/src/cli.ts and the part_001
CLI hook: if the transcript file exists, trim, split, filter blank lines
and parse each line, where a malformed line throws (none); a missing (or
non-string) path yields an empty transcript. -/
def inlineTranscript (jp : String → Option JVal) (fs : String → Option String)
    (input : JsObj) : Option (List JVal) :=
  match (transcriptPathOf input).bind fs with
  | none => some []
  | some content => mapLines jp (linesOf content)

/-- The wire payload built by src/src/cli.ts and by the part_001 CLI:
session_id, transcript, reason. -/
def cliPayload (input : JsObj) (entries : List JVal) : JsObj :=
  [("session_id", jsGetD input "session_id"),
   ("transcript", .jarr entries),
   ("reason", jsGetD input "reason")]

/-- The wire payload built by src/src/hook.ts main. -/
def hookPayload (input : JsObj) (transcript : List JVal) : JsObj :=
  [("session_id", jsGetD input "session_id"),
   ("tool_use_id", jsGetD input "tool_use_id"),
   ("tool_name", jsGetD input "tool_name"),
   ("tool_input", jsGetD input "tool_input"),
   ("cwd", jsGetD input "cwd"),
   ("transcript", .jarr transcript),
   ("hook_event", jsGetD input "hook_event_name")]

/-- The hook command of src/src/cli.ts: enable-gate check on the marker
file, read stdin, JSON.parse (throw is caught, still exit 0), inline
transcript load (a malformed line throws, caught, exit 0 with no request),
then an AWAITED fetch of the payload; every path ends in process.exit(0).
fetchStatus (none is a network error, some s an HTTP status) only affects
logging, which is not modelled. -/
def cliHook (markerExists : Bool) (jp : String → Option JVal)
    (stdinRaw : String) (fs : String → Option String)
    (fetchStatus : Option Nat) : HookRun :=
  if !markerExists then
    ⟨0, [], [.checkMarker, .exitA 0]⟩
  else
    match jp stdinRaw with
    | none => ⟨0, [], [.checkMarker, .readStdinA, .exitA 0]⟩
    | some v =>
      match jsProps v with
      | none => ⟨0, [], [.checkMarker, .readStdinA, .exitA 0]⟩
      | some input =>
        match inlineTranscript jp fs input with
        | none => ⟨0, [], [.checkMarker, .readStdinA, .parseTranscriptA, .exitA 0]⟩
        | some entries =>
          ⟨0, [cliPayload input entries],
           [.checkMarker, .readStdinA, .parseTranscriptA, .startFetch,
            .awaitResponse, .exitA 0]⟩

/-- main of src/src/hook.ts: read stdin, JSON.parse (throw caught, exit 0),
parseTranscript (which never throws), uploadToAPI which returns without
fetching when API_URL is falsy and otherwise starts the fetch WITHOUT
awaiting it, then a 50 ms sleep and process.exit(0). -/
def hookMain (apiUrl : Option String) (jp : String → Option JVal)
    (stdinRaw : String) (fs : String → Option String) : HookRun :=
  match jp stdinRaw with
  | none => ⟨0, [], [.readStdinA, .exitA 0]⟩
  | some v =>
    match jsProps v with
    | none => ⟨0, [], [.readStdinA, .exitA 0]⟩
    | some input =>
      if strTruthy apiUrl then
        ⟨0, [hookPayload input
              (match transcriptPathOf input with
               | some p => parseTranscript jp fs p
               | none => [])],
         [.readStdinA, .parseTranscriptA, .startFetch, .sleepMs 50, .exitA 0]⟩
      else
        ⟨0, [], [.readStdinA, .parseTranscriptA, .sleepMs 50, .exitA 0]⟩

/-- The hook command of the CLI variant in src/unnamed/part_001: no enable
gate, read stdin, JSON.parse (throw caught, exit 0), inline transcript load
(a malformed line throws, caught, exit 0 with no request), fetch started
WITHOUT awaiting (errors swallowed by catch), 50 ms sleep, exit 0. -/
def part1Hook (jp : String → Option JVal) (stdinRaw : String)
    (fs : String → Option String) : HookRun :=
  match jp stdinRaw with
  | none => ⟨0, [], [.readStdinA, .exitA 0]⟩
  | some v =>
    match jsProps v with
    | none => ⟨0, [], [.readStdinA, .exitA 0]⟩
    | some input =>
      match inlineTranscript jp fs input with
      | none => ⟨0, [], [.readStdinA, .parseTranscriptA, .exitA 0]⟩
      | some entries =>
        ⟨0, [cliPayload input entries],
         [.readStdinA, .parseTranscriptA, .startFetch, .sleepMs 50, .exitA 0]⟩

theorem jsGet_append_snd (o : JsObj) (k1 k2 : String) (v1 v2 : JVal) :
    jsGet (o ++ [(k1, v1), (k2, v2)]) k2 = some v2 := by
  simp [jsGet]

theorem jsGet_append_fst (o : JsObj) (k1 k2 : String) (v1 v2 : JVal)
    (hne : k2 ≠ k1) :
    jsGet (o ++ [(k1, v1), (k2, v2)]) k1 = some v1 := by
  simp [jsGet, hne]

theorem jsGet_append_other (o : JsObj) (k1 k2 k : String) (v1 v2 : JVal)
    (h1 : k1 ≠ k) (h2 : k2 ≠ k) :
    jsGet (o ++ [(k1, v1), (k2, v2)]) k = jsGet o k := by
  simp [jsGet, h1, h2]

/-- A concrete JSON.parse model for witnesses: parses the literal IN to an
input object naming no transcript path, the literal ok to null, and
rejects everything else. -/
def jpW : String → Option JVal := fun s =>
  if s = "IN" then some (.jobj [("session_id", .jstr "s1")])
  else if s = "ok" then some .jnull
  else none

/-- A concrete one-file filesystem for witnesses: one transcript whose
second line is malformed. -/
def fsBad : String → Option String := fun p =>
  if p = "/t.jsonl" then some "ok\nbad" else none

/-- A concrete one-file filesystem for witnesses: one transcript whose two
lines are both well-formed. -/
def fsGood : String → Option String := fun p =>
  if p = "/t.jsonl" then some "ok\nok" else none

/-- C4: a transcript log file containing at least one malformed non-blank
line makes the Transcript Loader abort the whole load and yield the empty
sequence; no entry from that file, well-formed lines included, is
returned for that call. -/
theorem C4_malformed_line_aborts_load (jp : String → Option JVal)
    (fs : String → Option String) (path content l : String)
    (hfs : fs path = some content) (hl : l ∈ linesOf content)
    (hbad : jp l = none) :
    parseTranscript jp fs path = [] := by
  simp [parseTranscript, hfs, mapLines_eq_none_of_mem jp _ l hl hbad]

/-- Witness for C4 at a concrete file: the first line parses, the second
does not, and the whole load yields the empty sequence. -/
theorem C4_malformed_line_aborts_load_witness :
    parseTranscript jpW fsBad "/t.jsonl" = [] :=
  C4_malformed_line_aborts_load jpW fsBad "/t.jsonl" "ok\nbad" "bad" rfl
    (by decide) rfl

/-- C8: a transcript log file whose content consists of well-formed
newline-delimited JSON lines (blank lines discarded) loads to exactly one
entry per line, in file order. -/
theorem C8_wellformed_lines_loaded (jp : String → Option JVal)
    (fs : String → Option String) (path content : String) (entries : List JVal)
    (hfs : fs path = some content)
    (hok : mapLines jp (linesOf content) = some entries) :
    parseTranscript jp fs path = entries ∧
    entries.length = (linesOf content).length ∧
    ∀ i : Nat, ∀ hi : i < (linesOf content).length, ∀ hj : i < entries.length,
      jp ((linesOf content).get ⟨i, hi⟩) = some (entries.get ⟨i, hj⟩) := by
  refine ⟨by simp [parseTranscript, hfs, hok], mapLines_length jp _ _ hok, ?_⟩
  intro i hi hj
  exact mapLines_get jp _ _ hok i hi hj

/-- Witness for C8 at a concrete two-line file. -/
theorem C8_wellformed_lines_loaded_witness :
    parseTranscript jpW fsGood "/t.jsonl" = [.jnull, .jnull] ∧
    ([JVal.jnull, JVal.jnull]).length = (linesOf "ok\nok").length ∧
    ∀ i : Nat, ∀ hi : i < (linesOf "ok\nok").length,
      ∀ hj : i < ([JVal.jnull, JVal.jnull]).length,
      jpW ((linesOf "ok\nok").get ⟨i, hi⟩) =
        some (([JVal.jnull, JVal.jnull]).get ⟨i, hj⟩) :=
  C8_wellformed_lines_loaded jpW fsGood "/t.jsonl" "ok\nok" [.jnull, .jnull]
    rfl rfl

/-- C6: when the per-project enable marker .claude/upload-transcripts does
not exist, the cli.ts session-end hook exits 0 immediately and issues no
network request. -/
theorem C6_marker_absent_skips_upload (jp : String → Option JVal)
    (stdinRaw : String) (fs : String → Option String)
    (fetchStatus : Option Nat) :
    cliHook false jp stdinRaw fs fetchStatus =
      ⟨0, [], [.checkMarker, .exitA 0]⟩ :=
  rfl

/-- C7: every hook CLI entry point (cli.ts hook, hook.ts main, the part_001
CLI hook) exits with code 0 for every stdin input, filesystem, marker state
and upload outcome. -/
theorem C7_hook_always_exits_zero (markerExists : Bool)
    (jp : String → Option JVal) (stdinRaw : String)
    (fs : String → Option String) (fetchStatus : Option Nat)
    (apiUrl : Option String) :
    (cliHook markerExists jp stdinRaw fs fetchStatus).exitCode = 0 ∧
    (hookMain apiUrl jp stdinRaw fs).exitCode = 0 ∧
    (part1Hook jp stdinRaw fs).exitCode = 0 := by
  refine ⟨?_, ?_, ?_⟩
  · unfold cliHook
    (repeat' split) <;> rfl
  · unfold hookMain
    (repeat' split) <;> rfl
  · unfold part1Hook
    (repeat' split) <;> rfl

/-- C3 counterexample: a concrete cli.ts hook invocation (marker present,
parseable stdin, no transcript file) dispatches an upload, yet its trace
awaits the full response and contains no 50 ms grace sleep before exit:
the claim that every dispatching hook invocation avoids blocking on the
request and exits after a fixed 50 ms grace period is false for the cli.ts
session-end variant. -/
theorem C3_counterexample :
    ((cliHook true jpW "IN" (fun _ => none) (some 200)).requests ≠ []) ∧
    HookAction.awaitResponse ∈
      (cliHook true jpW "IN" (fun _ => none) (some 200)).trace ∧
    HookAction.sleepMs 50 ∉
      (cliHook true jpW "IN" (fun _ => none) (some 200)).trace := by
  have h : cliHook true jpW "IN" (fun _ => none) (some 200) =
      ⟨0, [cliPayload [("session_id", .jstr "s1")] []],
       [.checkMarker, .readStdinA, .parseTranscriptA, .startFetch,
        .awaitResponse, .exitA 0]⟩ := rfl
  rw [h]
  refine ⟨by simp, by simp, by simp⟩

/-- C3 amended: the PostToolUse hook (src/src/hook.ts) and the part_001 CLI
hook initiate the POST without awaiting its completion, wait a fixed 50 ms
grace period and exit; the cli.ts session-end hook instead awaits the full
request/response cycle before exiting (with no grace sleep), though it
still always exits 0. -/
theorem C3_amended_fire_and_forget (apiUrl : Option String)
    (jp : String → Option JVal) (stdinRaw : String)
    (fs : String → Option String) (markerExists : Bool)
    (fetchStatus : Option Nat) :
    (HookAction.awaitResponse ∉ (hookMain apiUrl jp stdinRaw fs).trace) ∧
    ((hookMain apiUrl jp stdinRaw fs).requests ≠ [] →
      (hookMain apiUrl jp stdinRaw fs).trace =
        [.readStdinA, .parseTranscriptA, .startFetch, .sleepMs 50, .exitA 0]) ∧
    (HookAction.awaitResponse ∉ (part1Hook jp stdinRaw fs).trace) ∧
    ((part1Hook jp stdinRaw fs).requests ≠ [] →
      (part1Hook jp stdinRaw fs).trace =
        [.readStdinA, .parseTranscriptA, .startFetch, .sleepMs 50, .exitA 0]) ∧
    (HookAction.sleepMs 50 ∉
      (cliHook markerExists jp stdinRaw fs fetchStatus).trace) ∧
    ((cliHook markerExists jp stdinRaw fs fetchStatus).requests ≠ [] →
      HookAction.awaitResponse ∈
        (cliHook markerExists jp stdinRaw fs fetchStatus).trace) := by
  refine ⟨?_, ?_, ?_, ?_, ?_, ?_⟩ <;>
    · first
      | (unfold hookMain; (repeat' split) <;> simp)
      | (unfold part1Hook; (repeat' split) <;> simp)
      | (unfold cliHook; (repeat' split) <;> simp)

/-- Witness for C3 amended: a concrete hook.ts invocation that dispatches
and shows the fire-and-forget trace. -/
theorem C3_amended_fire_and_forget_witness :
    (hookMain (some "https://api.example/upload") jpW "IN" (fun _ => none)).trace =
      [.readStdinA, .parseTranscriptA, .startFetch, .sleepMs 50, .exitA 0] :=
  (C3_amended_fire_and_forget (some "https://api.example/upload") jpW "IN"
      (fun _ => none) true (some 200)).2.1
    (fun h => List.noConfusion
      (h : ([hookPayload [("session_id", JVal.jstr "s1")] []] : List JsObj) = []))

/-- C1: a POST whose payload has session_id absent or equal to the empty
string is answered 400 by both document-store handlers, with no document
inserted and without the connection getter being invoked (the module cache
state is untouched); for the src/api/upload.ts variant this is stated for
requests that pass its optional shared-secret gate (no API_KEY configured,
or a matching x-api-key header). -/
theorem C1_missing_session_id_rejected (uri : Option String) (env : UploadEnv)
    (req1 : P1Req) (req2 : UploadReq) (connectOk insertOk : Bool) (now : JVal)
    (st : GetState)
    (h1m : req1.method = "POST")
    (h1s : jsGet req1.body "session_id" = none ∨
           jsGet req1.body "session_id" = some (.jstr ""))
    (h2m : req2.method = "POST")
    (h2auth : strTruthy env.apiKeyEnv = false ∨
              req2.apiKeyHeader = env.apiKeyEnv)
    (h2s : jsGet req2.body "session_id" = none ∨
           jsGet req2.body "session_id" = some (.jstr "")) :
    mongo2Handler uri req1 connectOk insertOk now st = ⟨400, [], st, false⟩ ∧
    uploadHandler env req2 connectOk insertOk now st = ⟨400, [], st, false⟩ := by
  have ht1 : getTruthy req1.body "session_id" = false := by
    rcases h1s with h | h <;> simp [getTruthy, jsGetD, h, jvalTruthy]
  have ht2 : getTruthy req2.body "session_id" = false := by
    rcases h2s with h | h <;> simp [getTruthy, jsGetD, h, jvalTruthy]
  constructor
  · simp [mongo2Handler, h1m, ht1]
  · rcases h2auth with h | h <;> simp [uploadHandler, h2m, ht2, h]

/-- Witness for C1: a POST with an empty body object (session_id absent) is
rejected 400 by both document-store handlers and nothing is persisted. -/
theorem C1_missing_session_id_rejected_witness :
    mongo2Handler (some "mongodb://db") ⟨"POST", none, none, []⟩ true true
        .jnull ⟨none, 0, 0⟩ = ⟨400, [], ⟨none, 0, 0⟩, false⟩ ∧
    uploadHandler ⟨none, some "mongodb://db"⟩ ⟨"POST", none, none, none, []⟩
        true true .jnull ⟨none, 0, 0⟩ = ⟨400, [], ⟨none, 0, 0⟩, false⟩ :=
  C1_missing_session_id_rejected (some "mongodb://db")
    ⟨none, some "mongodb://db"⟩ ⟨"POST", none, none, []⟩
    ⟨"POST", none, none, none, []⟩ true true .jnull ⟨none, 0, 0⟩
    rfl (Or.inl rfl) rfl (Or.inl rfl) (Or.inl rfl)

/-- C2 counterexample: a valid payload accepted by src/api/upload.ts with
no x-forwarded-for header and no socket remote address stores a document
whose client_ip is JavaScript undefined, not the string unknown: the
claimed final fallback to unknown does not exist in this variant. -/
theorem C2_counterexample :
    ((uploadHandler ⟨none, some "mongodb://db"⟩
        ⟨"POST", none, none, none,
         [("session_id", .jstr "s1"), ("tool_use_id", .jstr "t1")]⟩
        true true (.jstr "2024-01-01T00:00:00Z") ⟨none, 0, 0⟩).status = 200) ∧
    ((uploadHandler ⟨none, some "mongodb://db"⟩
        ⟨"POST", none, none, none,
         [("session_id", .jstr "s1"), ("tool_use_id", .jstr "t1")]⟩
        true true (.jstr "2024-01-01T00:00:00Z") ⟨none, 0, 0⟩).inserted.map
      (fun d => jsGet d "client_ip")) = [some .jundefined] ∧
    some JVal.jundefined ≠ some (JVal.jstr "unknown") := by
  refine ⟨rfl, rfl, by simp⟩

/-- C2 amended: for every payload accepted by the document-store handlers,
the stored document is the payload with server-assigned uploaded_at and
client_ip appended, and these two fields override any client-supplied
values of the same name while every other field is stored unchanged;
client_ip is taken from the x-forwarded-for header, falling back to the
socket remote address; the part_001 variants further fall back to the
string unknown, whereas src/api/upload.ts leaves client_ip undefined when
both sources are absent. -/
theorem C2_amended_enrichment (env : UploadEnv) (req2 : UploadReq)
    (uri : Option String) (req1 : P1Req) (ok1 ok2 : Bool) (now1 now2 : JVal)
    (st1 st2 st1x st2x : GetState) (c1 c2 : Nat)
    (h2m : req2.method = "POST")
    (h2auth : strTruthy env.apiKeyEnv = false ∨
              req2.apiKeyHeader = env.apiKeyEnv)
    (h2sid : getTruthy req2.body "session_id" = true)
    (h2tid : getTruthy req2.body "tool_use_id" = true)
    (h2conn : getMongoClient env.mongoUri ok2 st2 = (.ok c2, st2x))
    (h1m : req1.method = "POST")
    (h1sid : getTruthy req1.body "session_id" = true)
    (h1conn : getMongoClient uri ok1 st1 = (.ok c1, st1x)) :
    (uploadHandler env req2 ok2 true now2 st2 =
      ⟨200, [req2.body ++
        [("uploaded_at", now2),
         ("client_ip", clientIpUpload req2.xff req2.socketRemote)]],
       st2x, true⟩) ∧
    (jsGet (req2.body ++
        [("uploaded_at", now2),
         ("client_ip", clientIpUpload req2.xff req2.socketRemote)])
      "uploaded_at" = some now2) ∧
    (jsGet (req2.body ++
        [("uploaded_at", now2),
         ("client_ip", clientIpUpload req2.xff req2.socketRemote)])
      "client_ip" = some (clientIpUpload req2.xff req2.socketRemote)) ∧
    (∀ k, k ≠ "uploaded_at" → k ≠ "client_ip" →
      jsGet (req2.body ++
        [("uploaded_at", now2),
         ("client_ip", clientIpUpload req2.xff req2.socketRemote)]) k =
      jsGet req2.body k) ∧
    (mongo2Handler uri req1 ok1 true now1 st1 =
      ⟨200, [req1.body ++
        [("uploaded_at", now1),
         ("client_ip", .jstr (clientIpFull req1.xff req1.socketRemote))]],
       st1x, true⟩) ∧
    (jsGet (req1.body ++
        [("uploaded_at", now1),
         ("client_ip", .jstr (clientIpFull req1.xff req1.socketRemote))])
      "uploaded_at" = some now1) ∧
    (jsGet (req1.body ++
        [("uploaded_at", now1),
         ("client_ip", .jstr (clientIpFull req1.xff req1.socketRemote))])
      "client_ip" =
      some (.jstr (clientIpFull req1.xff req1.socketRemote))) ∧
    (∀ k, k ≠ "uploaded_at" → k ≠ "client_ip" →
      jsGet (req1.body ++
        [("uploaded_at", now1),
         ("client_ip", .jstr (clientIpFull req1.xff req1.socketRemote))]) k =
      jsGet req1.body k) ∧
    (∀ s r, s ≠ "" → clientIpUpload (some s) r = .jstr s) ∧
    (∀ r, clientIpUpload none (some r) = .jstr r) ∧
    (clientIpUpload none none = .jundefined) ∧
    (∀ s r, s ≠ "" → clientIpFull (some s) r = s) ∧
    (∀ r, r ≠ "" → clientIpFull none (some r) = r) ∧
    (clientIpFull none none = "unknown") := by
  refine ⟨?_, jsGet_append_fst _ _ _ _ _ (by simp),
    jsGet_append_snd _ _ _ _ _,
    fun k hk1 hk2 => jsGet_append_other _ _ _ _ _ _
      (fun h => hk1 h.symm) (fun h => hk2 h.symm), ?_,
    jsGet_append_fst _ _ _ _ _ (by simp),
    jsGet_append_snd _ _ _ _ _,
    fun k hk1 hk2 => jsGet_append_other _ _ _ _ _ _
      (fun h => hk1 h.symm) (fun h => hk2 h.symm),
    fun s r hs => by simp [clientIpUpload, hs],
    fun r => rfl, rfl,
    fun s r hs => by simp [clientIpFull, hs],
    fun r hr => by simp [clientIpFull, hr], rfl⟩
  · rcases h2auth with h | h <;>
      simp [uploadHandler, h2m, h2sid, h2tid, h2conn, h]
  · simp [mongo2Handler, h1m, h1sid, h1conn]

/-- Witness for C2 amended at a concrete accepted request carrying a
client-supplied client_ip that the server override discards on lookup. -/
theorem C2_amended_enrichment_witness :
    (uploadHandler ⟨none, some "mongodb://db"⟩
        ⟨"POST", none, some "1.2.3.4", some "5.6.7.8",
         [("session_id", .jstr "s1"), ("tool_use_id", .jstr "t1"),
          ("client_ip", .jstr "fake")]⟩
        true true (.jstr "T2") ⟨none, 0, 0⟩ =
      ⟨200, [[("session_id", JVal.jstr "s1"), ("tool_use_id", JVal.jstr "t1"),
              ("client_ip", JVal.jstr "fake")] ++
        [("uploaded_at", JVal.jstr "T2"),
         ("client_ip", clientIpUpload (some "1.2.3.4") (some "5.6.7.8"))]],
       ⟨some 0, 1, 1⟩, true⟩) ∧
    (jsGet ([("session_id", JVal.jstr "s1"), ("tool_use_id", JVal.jstr "t1"),
             ("client_ip", JVal.jstr "fake")] ++
        [("uploaded_at", JVal.jstr "T2"),
         ("client_ip", clientIpUpload (some "1.2.3.4") (some "5.6.7.8"))])
      "client_ip" =
      some (clientIpUpload (some "1.2.3.4") (some "5.6.7.8"))) :=
  ⟨(C2_amended_enrichment ⟨none, some "mongodb://db"⟩
      ⟨"POST", none, some "1.2.3.4", some "5.6.7.8",
       [("session_id", .jstr "s1"), ("tool_use_id", .jstr "t1"),
        ("client_ip", .jstr "fake")]⟩
      (some "mongodb://db") ⟨"POST", none, none, [("session_id", .jstr "s1")]⟩
      true true .jnull (.jstr "T2") ⟨none, 0, 0⟩ ⟨none, 0, 0⟩ ⟨some 0, 1, 1⟩
      ⟨some 0, 1, 1⟩ 0 0 rfl (Or.inl rfl) rfl rfl rfl rfl rfl rfl).1,
   (C2_amended_enrichment ⟨none, some "mongodb://db"⟩
      ⟨"POST", none, some "1.2.3.4", some "5.6.7.8",
       [("session_id", .jstr "s1"), ("tool_use_id", .jstr "t1"),
        ("client_ip", .jstr "fake")]⟩
      (some "mongodb://db") ⟨"POST", none, none, [("session_id", .jstr "s1")]⟩
      true true .jnull (.jstr "T2") ⟨none, 0, 0⟩ ⟨none, 0, 0⟩ ⟨some 0, 1, 1⟩
      ⟨some 0, 1, 1⟩ 0 0 rfl (Or.inl rfl) rfl rfl rfl rfl rfl rfl).2.2.1⟩

theorem runGetCalls_cached (u : String) (hu : u ≠ "") (c n e : Nat)
    (oks : List Bool) :
    runGetCalls (some u) oks ⟨some c, n, e⟩ =
      (oks.map (fun _ => Except.ok c), ⟨some c, n, e⟩) := by
  have hst : strTruthy (some u) = true := by simp [strTruthy, hu]
  induction oks with
  | nil => rfl
  | cons a as ih => simp [runGetCalls, getMongoClient, hst, ih]

/-- C5: within one warm process, a sequence of N at least 1 getter calls
with a configured URI performs exactly one connection establishment: the
first call constructs and caches the client, and every later call returns
that same cached handle with the module state unchanged. -/
theorem C5_at_most_one_establishment (u : String) (c : Nat) (ok1 : Bool)
    (oks : List Bool) (hu : u ≠ "") :
    (runGetCalls (some u) (ok1 :: oks) ⟨none, c, 0⟩).2 = ⟨some c, c + 1, 1⟩ ∧
    (runGetCalls (some u) (ok1 :: oks) ⟨none, c, 0⟩).1 =
      (if ok1 then Except.ok c else Except.error "connect failed") ::
        oks.map (fun _ => Except.ok c) := by
  have hst : strTruthy (some u) = true := by simp [strTruthy, hu]
  cases ok1 <;>
    simp [runGetCalls, getMongoClient, hst, runGetCalls_cached u hu]

/-- Witness for C5: three calls in one process establish once and all
return client 0. -/
theorem C5_at_most_one_establishment_witness :
    (runGetCalls (some "mongodb://db") [true, true, true]
        ⟨none, 0, 0⟩).2 = ⟨some 0, 1, 1⟩ ∧
    (runGetCalls (some "mongodb://db") [true, true, true] ⟨none, 0, 0⟩).1 =
      (if true then Except.ok 0 else Except.error "connect failed") ::
        [true, true].map (fun _ => Except.ok 0) :=
  C5_at_most_one_establishment "mongodb://db" 0 true [true, true] (by decide)

/-- C10: when the first connect attempt throws, getMongoClient leaves the
module cache set to the never-connected client it just constructed (the
assignment precedes the await of connect), so every later call in the same
process returns that unconnected client without establishing again: the
cache is not rolled back on error. -/
theorem C10_failed_connect_keeps_cache (u : String) (c : Nat)
    (oks : List Bool) (hu : u ≠ "") :
    getMongoClient (some u) false ⟨none, c, 0⟩ =
      (Except.error "connect failed", ⟨some c, c + 1, 1⟩) ∧
    runGetCalls (some u) oks ⟨some c, c + 1, 1⟩ =
      (oks.map (fun _ => Except.ok c), ⟨some c, c + 1, 1⟩) := by
  have hst : strTruthy (some u) = true := by simp [strTruthy, hu]
  exact ⟨by simp [getMongoClient, hst], runGetCalls_cached u hu _ _ _ oks⟩

/-- Witness for C10: after one failed connect, two later calls both return
the cached client 0 and the establishment count stays at 1. -/
theorem C10_failed_connect_keeps_cache_witness :
    getMongoClient (some "mongodb://db") false ⟨none, 0, 0⟩ =
      (Except.error "connect failed", ⟨some 0, 1, 1⟩) ∧
    runGetCalls (some "mongodb://db") [true, false] ⟨some 0, 1, 1⟩ =
      ([true, false].map (fun _ => Except.ok 0), ⟨some 0, 1, 1⟩) :=
  C10_failed_connect_keeps_cache "mongodb://db" 0 [true, false] (by decide)

/-- C9: the blob-store handler computes its destination key
deterministically as transcripts/(session_id).json, so two sequential
valid POSTs with the same session_id leave exactly one stored object at
that key, holding the document of the later write; the document-store handler
instead inserts one new record per valid request, so the same two POSTs
grow the collection by two records. -/
theorem C9_blob_overwrite_doc_append (env : S3Env) (uri : Option String)
    (req1 req2 mreq1 mreq2 : P1Req) (now1 now2 : String) (mnow1 mnow2 : JVal)
    (st : S3State) (mst : GetState) (coll : List JsObj) (s : String)
    (h1m : req1.method = "POST") (h2m : req2.method = "POST")
    (h1s : jsGet req1.body "session_id" = some (.jstr s))
    (h2s : jsGet req2.body "session_id" = some (.jstr s))
    (hs : s ≠ "")
    (hregion : strTruthy env.region = true)
    (haccess : strTruthy env.accessKeyId = true)
    (hsecret : strTruthy env.secretAccessKey = true)
    (hbucket : strTruthy env.bucket = true)
    (hm1m : mreq1.method = "POST") (hm2m : mreq2.method = "POST")
    (hm1s : getTruthy mreq1.body "session_id" = true)
    (hm2s : getTruthy mreq2.body "session_id" = true)
    (huri : strTruthy uri = true) :
    (s3Handler env req2 true now2
        (s3Handler env req1 true now1 st []).s3St
        (s3Handler env req1 true now1 st []).store).store =
      [(s3Key s, req2.body ++
        [("uploaded_at", .jstr now2),
         ("client_ip", .jstr (clientIpFull req2.xff req2.socketRemote))])] ∧
    (coll ++ (mongo2Handler uri mreq1 true true mnow1 mst).inserted ++
        (mongo2Handler uri mreq2 true true mnow2
          (mongo2Handler uri mreq1 true true mnow1 mst).connSt).inserted).length =
      coll.length + 2 := by
  have ht1 : getTruthy req1.body "session_id" = true := by
    simp [getTruthy, jsGetD, h1s, jvalTruthy, hs]
  have ht2 : getTruthy req2.body "session_id" = true := by
    simp [getTruthy, jsGetD, h2s, jvalTruthy, hs]
  constructor
  · cases hc : st.cachedS3Client with
    | some c0 =>
      simp [s3Handler, h1m, h2m, ht1, ht2, hbucket, getS3Client,
        hregion, haccess, hsecret, hc, s3Put, jsGetD, h1s, h2s, jsToString]
    | none =>
      simp [s3Handler, h1m, h2m, ht1, ht2, hbucket, getS3Client,
        hregion, haccess, hsecret, hc, s3Put, jsGetD, h1s, h2s, jsToString]
  · cases hc : mst.cachedClient with
    | some c0 =>
      simp [mongo2Handler, hm1m, hm2m, hm1s, hm2s, getMongoClient, huri, hc]
    | none =>
      simp [mongo2Handler, hm1m, hm2m, hm1s, hm2s, getMongoClient, huri, hc]

/-- Witness for C9: two concrete uploads of session sid to the blob store
leave one object at transcripts/sid.json holding the second document; the
same two uploads to the document store insert two records. -/
theorem C9_blob_overwrite_doc_append_witness :
    (s3Handler ⟨some "r", some "a", some "k", some "b"⟩
        ⟨"POST", none, none, [("session_id", .jstr "sid")]⟩ true "T2"
        (s3Handler ⟨some "r", some "a", some "k", some "b"⟩
          ⟨"POST", none, none, [("session_id", .jstr "sid")]⟩ true "T1"
          ⟨none, 0, 0⟩ []).s3St
        (s3Handler ⟨some "r", some "a", some "k", some "b"⟩
          ⟨"POST", none, none, [("session_id", .jstr "sid")]⟩ true "T1"
          ⟨none, 0, 0⟩ []).store).store =
      [(s3Key "sid", [("session_id", JVal.jstr "sid")] ++
        [("uploaded_at", JVal.jstr "T2"),
         ("client_ip", JVal.jstr (clientIpFull none none))])] ∧
    (([] : List JsObj) ++
        (mongo2Handler (some "mongodb://db")
          ⟨"POST", none, none, [("session_id", .jstr "sid")]⟩ true true
          (.jstr "T1") ⟨none, 0, 0⟩).inserted ++
        (mongo2Handler (some "mongodb://db")
          ⟨"POST", none, none, [("session_id", .jstr "sid")]⟩ true true
          (.jstr "T2")
          (mongo2Handler (some "mongodb://db")
            ⟨"POST", none, none, [("session_id", .jstr "sid")]⟩ true true
            (.jstr "T1") ⟨none, 0, 0⟩).connSt).inserted).length =
      ([] : List JsObj).length + 2 :=
  C9_blob_overwrite_doc_append ⟨some "r", some "a", some "k", some "b"⟩
    (some "mongodb://db")
    ⟨"POST", none, none, [("session_id", .jstr "sid")]⟩
    ⟨"POST", none, none, [("session_id", .jstr "sid")]⟩
    ⟨"POST", none, none, [("session_id", .jstr "sid")]⟩
    ⟨"POST", none, none, [("session_id", .jstr "sid")]⟩
    "T1" "T2" (.jstr "T1") (.jstr "T2") ⟨none, 0, 0⟩ ⟨none, 0, 0⟩ [] "sid"
    rfl rfl rfl rfl (by decide) rfl rfl rfl rfl rfl rfl rfl rfl rfl
